import Mathlib

/-!
Shallow embedding of `src/server.js`, a Stripe → Squarespace webhook relay.
The service verifies a webhook signature, filters for the two payment-success
event types, resolves a charge, extracts a Squarespace order id from charge
metadata, fetches the order, synthesizes a description from its line items and
writes it (plus a small metadata mapping) back onto the payment intent.

JavaScript conventions are modelled explicitly: a possibly-absent string field
is `Option String`, and the truthiness test used by the source (`if (x)`,
`x || y`) treats both `undefined`/`null` and the empty string as falsy.
Outbound API calls are recorded in an explicit trace, and `console.warn`
messages in a warning list, so that claims about "no outbound calls" and
"logs a warning" can be stated.
-/

namespace Splash

/-- JS truthiness of a possibly-absent string: `undefined`, `null` and `""`
are falsy, every other string is truthy. -/
def jsTruthy (o : Option String) : Bool :=
  match o with
  | none => false
  | some s => !(s == "")

/-- JS `a || b` on possibly-absent strings. -/
def jsOrStr (a b : Option String) : Option String :=
  if jsTruthy a then a else b

/-- JS `s.startsWith(pre)`: character-level prefix test. -/
def jsStartsWith (s pre : String) : Bool :=
  pre.data.isPrefixOf s.data

/-- JS `String.prototype.trim`: strip whitespace from both ends. -/
def jsTrim (s : String) : String :=
  String.mk (((s.data.dropWhile Char.isWhitespace).reverse.dropWhile Char.isWhitespace).reverse)

/-- JS `s.slice(0, n)`: the first `n` characters of `s` (never raises on a
longer or shorter string). -/
def jsSlice (s : String) (n : Nat) : String :=
  String.mk (s.data.take n)

/-- JS `String(x || '')` for a possibly-absent string `x`. -/
def orderNumberString (o : Option String) : String :=
  match jsOrStr o (some "") with
  | some s => s
  | none => ""

/-- Lower-case hexadecimal is not used by `encodeURIComponent`; digits are
`0`-`9` then `A`-`F`. -/
def hexDigit (n : Nat) : Char :=
  if n < 10 then Char.ofNat (48 + n) else Char.ofNat (55 + n)

/-- UTF-8 byte sequence of a code point, as used by `encodeURIComponent`. -/
def utf8Bytes (n : Nat) : List Nat :=
  if n < 128 then [n]
  else if n < 2048 then [192 + n / 64, 128 + n % 64]
  else if n < 65536 then [224 + n / 4096, 128 + (n / 64) % 64, 128 + n % 64]
  else [240 + n / 262144, 128 + (n / 4096) % 64, 128 + (n / 64) % 64, 128 + n % 64]

/-- Percent-encode one byte: `%XY`. -/
def percentByte (n : Nat) : String :=
  String.mk [Char.ofNat 37, hexDigit (n / 16), hexDigit (n % 16)]

/-- Characters that JS `encodeURIComponent` leaves unescaped:
alphanumerics and `- _ . ! ~ * ' ( )`. -/
def isUnescapedURI (c : Char) : Bool :=
  c.isAlphanum || c == Char.ofNat 45 || c == Char.ofNat 95 || c == Char.ofNat 46 ||
    c == Char.ofNat 33 || c == Char.ofNat 126 || c == Char.ofNat 42 ||
    c == Char.ofNat 39 || c == Char.ofNat 40 || c == Char.ofNat 41

/-- JS `encodeURIComponent`. -/
def encodeURIComponent (s : String) : String :=
  String.join (s.data.map (fun c =>
    if isUnescapedURI c then String.mk [c]
    else String.join ((utf8Bytes c.toNat).map percentByte)))

/-! ## Data model -/

/-- A Squarespace order line item; `productName` may be absent. -/
structure LineItem where
  productName : Option String
deriving Repr, DecidableEq

/-- A Squarespace order as returned by the orders API: `order.id`,
`order.orderNumber` and `order.lineItems` are read by the handler. -/
structure Order where
  id : String
  orderNumber : Option String
  lineItems : Option (List LineItem)
deriving Repr, DecidableEq

/-- A Stripe charge: its `metadata` mapping (string keys and values) and the
optional back-reference `payment_intent`. -/
structure Charge where
  id : String
  metadata : Option (List (String × String))
  payment_intent : Option String
deriving Repr, DecidableEq

/-- The `charges` list object of an expanded payment intent (`pi.charges.data`). -/
structure ChargeList where
  data : Option (List Charge)
deriving Repr, DecidableEq

/-- A Stripe payment-intent record as retrieved with `expand: [charges.data]`. -/
structure PaymentIntentRec where
  id : String
  charges : Option ChargeList
deriving Repr, DecidableEq

/-- The `event.data.object` of a Stripe event: a payment intent (with
`latest_charge`) or a charge (with `payment_intent`); both carry `id`. -/
structure StripeObject where
  id : String
  latest_charge : Option String
  payment_intent : Option String
deriving Repr, DecidableEq

/-- A verified Stripe event: its `type` tag and `data.object`. -/
structure Event where
  type : String
  dataObject : StripeObject
deriving Repr, DecidableEq

/-- A `node-fetch` response: status, status text and body text.  `resp.ok`
is derived (status in the 2xx range). -/
structure FetchResponse where
  status : Nat
  statusText : String
  body : String
deriving Repr, DecidableEq

/-- `resp.ok` of node-fetch: status between 200 and 299. -/
def respOk (r : FetchResponse) : Bool :=
  200 ≤ r.status && r.status ≤ 299

/-- The external world the handler calls into: the Stripe SDK retrieval
endpoints, the HTTP fetch, and JSON parsing of an order body. -/
structure Env where
  retrieveCharge : String → Charge
  retrievePI : String → PaymentIntentRec
  fetch : String → FetchResponse
  parseOrder : String → Order

/-- One outbound API call made by the handler. -/
inductive Call where
  | chargeRetrieve (id : String)
  | piRetrieve (id : String)
  | orderGet (url : String)
  | piUpdate (id : String) (description : String) (metadata : List (String × String))
deriving Repr, DecidableEq

/-- Outcome of `handleStripeEvent`: one of the four silent aborts, a raised
fetch error, or a performed payment-intent update. -/
inductive HandlerResult where
  | noCharge
  | noOrderId
  | noNames
  | noPaymentIntent
  | fetchError (msg : String)
  | updated (piId : String) (description : String) (metadata : List (String × String))
deriving Repr, DecidableEq

/-- Everything observable about one run of `handleStripeEvent`: its outcome,
the outbound calls it made, and the `console.warn` messages it logged. -/
structure HandlerOutput where
  result : HandlerResult
  calls : List Call
  warns : List String
deriving Repr, DecidableEq

/-! ## The handler, step by step (following `server.js`) -/

/-- The Squarespace orders API base url (`SS_BASE`). -/
def SS_BASE : String := "https://api.squarespace.com/1.0/commerce/orders"

/-- The error message `ssGet` raises on a non-2xx response:
`Squarespace ${resp.status} ${resp.statusText}: ${text}` — it carries the
status code, the status text and the response body text. -/
def ssErrorMessage (resp : FetchResponse) : String :=
  "Squarespace " ++ toString resp.status ++ " " ++ resp.statusText ++ ": " ++ resp.body

/-- `ssGet(path)`: fetch `SS_BASE + path`; on a non-2xx response throw the
error message, otherwise parse the body as JSON. -/
def ssGet (env : Env) (path : String) : Except String Order :=
  let resp := env.fetch (SS_BASE ++ path)
  if respOk resp then Except.ok (env.parseOrder resp.body)
  else Except.error (ssErrorMessage resp)

/-- Lookup of a key in a JS object modelled as an association list
(first binding wins, as JS objects have unique keys). -/
def mdLookup (md : List (String × String)) (k : String) : Option String :=
  (md.find? (fun p => p.1 == k)).map (fun p => p.2)

/-- The join-key extraction:
`md.metadataid || md.orderid || md.squarespace_order_id || null`. -/
def orderIdOf (md : List (String × String)) : Option String :=
  jsOrStr (mdLookup md "metadataid")
    (jsOrStr (mdLookup md "orderid")
      (jsOrStr (mdLookup md "squarespace_order_id") none))

/-- `(pi.charges?.data?.[0]) || null`: the first charge of an expanded
payment intent, if any. -/
def firstChargeOf (pi : PaymentIntentRec) : Option Charge :=
  match pi.charges with
  | none => none
  | some cl =>
    match cl.data with
    | none => none
    | some l => l.head?

/-- Identifier extraction (step 3): a `payment_intent.*` event supplies the
payment-intent id directly and possibly a `latest_charge`; a
`charge.succeeded` event supplies the charge id and possibly its parent
`payment_intent`.  Returns `(paymentIntentId, chargeId)`. -/
def extractIds (event : Event) : Option String × Option String :=
  if jsStartsWith event.type "payment_intent." then
    (some event.dataObject.id,
     if jsTruthy event.dataObject.latest_charge then event.dataObject.latest_charge else none)
  else if event.type == "charge.succeeded" then
    ((if jsTruthy event.dataObject.payment_intent then event.dataObject.payment_intent else none),
     some event.dataObject.id)
  else (none, none)

/-- Charge resolution (step 4): if a charge id is truthy retrieve the charge
directly, else if a payment-intent id is truthy retrieve the payment intent
expanded with its charges and take the first; otherwise no charge.  Also
returns the outbound calls made. -/
def resolveCharge (env : Env) (chargeId paymentIntentId : Option String) :
    Option Charge × List Call :=
  if jsTruthy chargeId then
    (some (env.retrieveCharge (chargeId.getD "")), [Call.chargeRetrieve (chargeId.getD "")])
  else if jsTruthy paymentIntentId then
    (firstChargeOf (env.retrievePI (paymentIntentId.getD "")),
     [Call.piRetrieve (paymentIntentId.getD "")])
  else (none, [])

/-- Description synthesis, names part:
`(order.lineItems || []).map(li => (li?.productName || '').trim()).filter(Boolean)`. -/
def namesOf (lineItems : List LineItem) : List String :=
  (lineItems.map (fun li => jsTrim (li.productName.getD ""))).filter (fun s => !(s == ""))

/-- The synthesized description: `names.join(', ').slice(0, 500)`. -/
def descriptionOf (lineItems : List LineItem) : String :=
  jsSlice (String.intercalate ", " (namesOf lineItems)) 500

/-- Payment-intent resolution fallback (step 9): keep a truthy
`paymentIntentId`, else fall back to `charge.payment_intent || null`. -/
def finalPiId (paymentIntentId : Option String) (charge : Charge) : Option String :=
  if jsTruthy paymentIntentId then paymentIntentId
  else if jsTruthy charge.payment_intent then charge.payment_intent else none

/-- The metadata mapping written by the update call (step 10). -/
def piMetadataOf (order : Order) (names : List String) : List (String × String) :=
  [("squarespace_order_id", order.id),
   ("squarespace_order_number", orderNumberString order.orderNumber),
   ("product_count", toString names.length)]

/-- Steps 9–10: resolve the payment-intent id (falling back to the charge's
back-reference); abort with a warning if none, otherwise perform the update
call with the description and the metadata mapping. -/
def updateStep (paymentIntentId : Option String) (charge : Charge) (order : Order)
    (names : List String) (description : String) (calls : List Call) : HandlerOutput :=
  match finalPiId paymentIntentId charge with
  | none =>
    ⟨HandlerResult.noPaymentIntent, calls,
     ["No PaymentIntent id available; cannot update description."]⟩
  | some pid =>
    ⟨HandlerResult.updated pid description (piMetadataOf order names),
     calls ++ [Call.piUpdate pid description (piMetadataOf order names)], []⟩

/-- Steps 6–10: fetch the order at `/${encodeURIComponent(orderId)}` (a non-2xx
response propagates as a fetch error), synthesize the description, abort with
a warning when no product names survive, then run the update step. -/
def orderStep (env : Env) (paymentIntentId : Option String) (charge : Charge)
    (orderId : String) (calls : List Call) : HandlerOutput :=
  let path := "/" ++ encodeURIComponent orderId
  let calls2 := calls ++ [Call.orderGet (SS_BASE ++ path)]
  match ssGet env path with
  | Except.error e => ⟨HandlerResult.fetchError e, calls2, []⟩
  | Except.ok order =>
    let items := order.lineItems.getD []
    let names := namesOf items
    if names.isEmpty then
      ⟨HandlerResult.noNames, calls2,
       ["Order " ++ orderId ++ " has no productName entries."]⟩
    else
      updateStep paymentIntentId charge order names (descriptionOf items) calls2

/-- `handleStripeEvent`: extract ids, resolve the charge (abort with a warning
if none), extract the order id from `charge.metadata || {}` (abort with a
warning if none), then fetch the order and update the payment intent. -/
def handleStripeEvent (env : Env) (event : Event) : HandlerOutput :=
  let ids := extractIds event
  let rc := resolveCharge env ids.2 ids.1
  match rc.1 with
  | none =>
    ⟨HandlerResult.noCharge, rc.2, ["No charge found; cannot read metadata join key."]⟩
  | some charge =>
    match orderIdOf (charge.metadata.getD []) with
    | none =>
      ⟨HandlerResult.noOrderId, rc.2,
       ["No Squarespace order id in charge.metadata; aborting clean match."]⟩
    | some orderId => orderStep env ids.1 charge orderId rc.2

/-! ## The endpoint -/

/-- Outcome of `stripe.webhooks.constructEvent`: a verified event, or a thrown
signature-verification error with its message. -/
inductive SigResult where
  | ok (event : Event)
  | fail (msg : String)
deriving Repr, DecidableEq

/-- The body of the endpoint's HTTP response: `{received: true}`,
`{received: true, error: true}`, or the 400 text body. -/
inductive RespBody where
  | receivedOnly
  | receivedWithError
  | webhookError (msg : String)
deriving Repr, DecidableEq

/-- The endpoint's observable behaviour: HTTP status, response body, and the
outbound calls performed while handling the request. -/
structure WebhookResponse where
  status : Nat
  body : RespBody
  calls : List Call
deriving Repr, DecidableEq

/-- `event.type === 'payment_intent.succeeded' || event.type === 'charge.succeeded'`. -/
def triggersHandler (event : Event) : Bool :=
  event.type == "payment_intent.succeeded" || event.type == "charge.succeeded"

/-- `POST /webhooks/stripe`: a signature failure yields
`400 "Webhook Error: <message>"` with no outbound calls; otherwise the two
payment-success event types run `handleStripeEvent` (a raised error is caught
and answered `200 {received: true, error: true}`), and every other event type
is acknowledged `200 {received: true}` with no outbound calls. -/
def postWebhooksStripe (env : Env) (sig : SigResult) : WebhookResponse :=
  match sig with
  | SigResult.fail msg => ⟨400, RespBody.webhookError ("Webhook Error: " ++ msg), []⟩
  | SigResult.ok event =>
    if triggersHandler event then
      let out := handleStripeEvent env event
      match out.result with
      | HandlerResult.fetchError _ => ⟨200, RespBody.receivedWithError, out.calls⟩
      | _ => ⟨200, RespBody.receivedOnly, out.calls⟩
    else ⟨200, RespBody.receivedOnly, []⟩

/-! ## Startup configuration check -/

/-- The three required environment variables. -/
structure EnvVars where
  STRIPE_API_KEY : Option String
  STRIPE_WEBHOOK_SECRET : Option String
  SQUARESPACE_API_KEY : Option String
deriving Repr, DecidableEq

/-- What the process does at startup. -/
inductive StartupResult where
  | exited (code : Nat)
  | listening
deriving Repr, DecidableEq

/-- `if (!STRIPE_API_KEY || !STRIPE_WEBHOOK_SECRET || !SQUARESPACE_API_KEY) process.exit(1)`,
before `app.listen` runs. -/
def startup (e : EnvVars) : StartupResult :=
  if !(jsTruthy e.STRIPE_API_KEY) || !(jsTruthy e.STRIPE_WEBHOOK_SECRET) ||
      !(jsTruthy e.SQUARESPACE_API_KEY) then
    StartupResult.exited 1
  else StartupResult.listening

/-! ## Spec-side definitions (for refinement statements)

These two definitions follow the specification's wording, to be compared
with the definitions above, which were translated from the source. -/

/-- Follows the spec's words: "collect each line item's product-name field,
trim whitespace, discard empty strings, join surviving names with `, `, and
truncate the result to 500 characters." -/
def specDescription (items : List LineItem) : String :=
  jsSlice (String.intercalate ", "
    (((items.map (fun li => li.productName.getD "")).map jsTrim).filter
      (fun s => !(s == "")))) 500

/-- The three candidate metadata key names, in the source's priority order. -/
def orderIdKeys : List String := ["metadataid", "orderid", "squarespace_order_id"]

/-- Follows the spec's words: "an explicit ordered list of candidate keys
consulted in priority order", first match (a key bound to a truthy value)
wins. -/
def firstTruthyKey (md : List (String × String)) : List String → Option String
  | [] => none
  | k :: ks => if jsTruthy (mdLookup md k) then mdLookup md k else firstTruthyKey md ks

/-- The full order-service URL for a given order id. -/
def orderUrl (orderId : String) : String :=
  SS_BASE ++ ("/" ++ encodeURIComponent orderId)

/-! ## Concrete fixtures used to witness the theorems -/

/-- A charge whose metadata has none of the three order-id keys. -/
def chNoKeys : Charge := ⟨"ch_1", some [("color", "red")], some "pi_1"⟩

/-- A charge whose metadata binds all three order-id keys to the empty string. -/
def chEmptyKeys : Charge :=
  ⟨"ch_2", some [("metadataid", ""), ("orderid", ""), ("squarespace_order_id", "")],
   some "pi_1"⟩

/-- A charge whose metadata carries an order id under `orderid`. -/
def chWithOrder : Charge := ⟨"ch_3", some [("orderid", "ord-42")], some "pi_1"⟩

/-- A `charge.succeeded` event referencing charge `ch_1` and its payment intent. -/
def evCharge : Event := ⟨"charge.succeeded", ⟨"ch_1", none, some "pi_1"⟩⟩

/-- An event of a type that does not trigger business logic. -/
def evIgnored : Event := ⟨"invoice.paid", ⟨"in_1", none, none⟩⟩

/-- A non-2xx order-service response. -/
def respNotFound : FetchResponse := ⟨404, "Not Found", "no such order"⟩

/-- A 2xx order-service response. -/
def respFound : FetchResponse := ⟨200, "OK", "orderjson"⟩

/-- A Squarespace order with product names "A", " " and "B". -/
def orderAB : Order :=
  ⟨"ord-42", some "1001", some [⟨some "A"⟩, ⟨some " "⟩, ⟨some "B"⟩]⟩

/-- A world whose charge has no order-id metadata keys. -/
def envNoKeys : Env :=
  ⟨fun _ => chNoKeys, fun _ => ⟨"pi_1", none⟩, fun _ => respNotFound, fun _ => orderAB⟩

/-- A world whose charge binds every order-id key to the empty string. -/
def envEmptyKeys : Env :=
  ⟨fun _ => chEmptyKeys, fun _ => ⟨"pi_1", none⟩, fun _ => respNotFound, fun _ => orderAB⟩

/-- A world with a good charge but a failing order service. -/
def envNotFound : Env :=
  ⟨fun _ => chWithOrder, fun _ => ⟨"pi_1", none⟩, fun _ => respNotFound, fun _ => orderAB⟩

/-- A world where everything succeeds. -/
def envOrders : Env :=
  ⟨fun _ => chWithOrder, fun _ => ⟨"pi_1", none⟩, fun _ => respFound, fun _ => orderAB⟩

/-! ## Helper lemmas -/

/-- Charge resolution never issues an order-service GET. -/
theorem resolveCharge_no_orderGet (env : Env) (a b : Option String) (u : String) :
    Call.orderGet u ∉ (resolveCharge env a b).2 := by
  unfold resolveCharge
  split
  · simp
  · split <;> simp

/-- Charge resolution never issues a payment-intent update. -/
theorem resolveCharge_no_piUpdate (env : Env) (a b : Option String)
    (p d : String) (m : List (String × String)) :
    Call.piUpdate p d m ∉ (resolveCharge env a b).2 := by
  unfold resolveCharge
  split
  · simp
  · split <;> simp

/-- When charge resolution yields no charge, the handler aborts with a warning. -/
theorem handle_noCharge (env : Env) (event : Event)
    (hc : (resolveCharge env (extractIds event).2 (extractIds event).1).1 = none) :
    handleStripeEvent env event =
      ⟨HandlerResult.noCharge,
       (resolveCharge env (extractIds event).2 (extractIds event).1).2,
       ["No charge found; cannot read metadata join key."]⟩ := by
  unfold handleStripeEvent
  dsimp only
  rw [hc]

/-- When the resolved charge's metadata yields no order id, the handler aborts
with a warning. -/
theorem handle_noOrderId (env : Env) (event : Event) (c : Charge)
    (hc : (resolveCharge env (extractIds event).2 (extractIds event).1).1 = some c)
    (hoid : orderIdOf (c.metadata.getD []) = none) :
    handleStripeEvent env event =
      ⟨HandlerResult.noOrderId,
       (resolveCharge env (extractIds event).2 (extractIds event).1).2,
       ["No Squarespace order id in charge.metadata; aborting clean match."]⟩ := by
  unfold handleStripeEvent
  dsimp only
  rw [hc]
  dsimp only
  rw [hoid]

/-- When the order-service response is non-2xx, the handler raises the fetch
error after the order GET and performs nothing further. -/
theorem handle_fetchError (env : Env) (event : Event) (c : Charge) (orderId : String)
    (hc : (resolveCharge env (extractIds event).2 (extractIds event).1).1 = some c)
    (hoid : orderIdOf (c.metadata.getD []) = some orderId)
    (hresp : respOk (env.fetch (orderUrl orderId)) = false) :
    handleStripeEvent env event =
      ⟨HandlerResult.fetchError (ssErrorMessage (env.fetch (orderUrl orderId))),
       (resolveCharge env (extractIds event).2 (extractIds event).1).2 ++
         [Call.orderGet (orderUrl orderId)], []⟩ := by
  unfold orderUrl at hresp ⊢
  unfold handleStripeEvent
  dsimp only
  rw [hc]
  dsimp only
  rw [hoid]
  unfold orderStep ssGet
  dsimp only
  rw [hresp]
  rfl

/-- When every step succeeds, the handler performs exactly the update call
with the synthesized description and metadata mapping. -/
theorem handle_updated (env : Env) (event : Event) (c : Charge) (orderId : String)
    (order : Order) (pid : String)
    (hc : (resolveCharge env (extractIds event).2 (extractIds event).1).1 = some c)
    (hoid : orderIdOf (c.metadata.getD []) = some orderId)
    (hresp : respOk (env.fetch (orderUrl orderId)) = true)
    (hord : env.parseOrder (env.fetch (orderUrl orderId)).body = order)
    (hn : (namesOf (order.lineItems.getD [])).isEmpty = false)
    (hpi : finalPiId (extractIds event).1 c = some pid) :
    handleStripeEvent env event =
      ⟨HandlerResult.updated pid (descriptionOf (order.lineItems.getD []))
         (piMetadataOf order (namesOf (order.lineItems.getD []))),
       ((resolveCharge env (extractIds event).2 (extractIds event).1).2 ++
          [Call.orderGet (orderUrl orderId)]) ++
         [Call.piUpdate pid (descriptionOf (order.lineItems.getD []))
            (piMetadataOf order (namesOf (order.lineItems.getD [])))], []⟩ := by
  unfold orderUrl at hresp hord ⊢
  unfold handleStripeEvent
  dsimp only
  rw [hc]
  dsimp only
  rw [hoid]
  unfold orderStep ssGet
  dsimp only
  rw [hresp, if_pos rfl, hord]
  dsimp only
  rw [hn, if_neg Bool.false_ne_true]
  unfold updateStep
  rw [hpi]

/-- When the handler's result is not a fetch error, the endpoint answers
`200 {received: true}` with the handler's calls. -/
theorem post_ok_of_result (env : Env) (event : Event)
    (ht : triggersHandler event = true)
    (hne : ∀ m, (handleStripeEvent env event).result ≠ HandlerResult.fetchError m) :
    postWebhooksStripe env (SigResult.ok event) =
      ⟨200, RespBody.receivedOnly, (handleStripeEvent env event).calls⟩ := by
  unfold postWebhooksStripe
  dsimp only
  rw [ht, if_pos rfl]
  cases hr : (handleStripeEvent env event).result with
  | noCharge => rfl
  | noOrderId => rfl
  | noNames => rfl
  | noPaymentIntent => rfl
  | fetchError m => exact absurd hr (hne m)
  | updated p d m => rfl

/-- When the handler's result is a fetch error, the endpoint answers
`200 {received: true, error: true}` with the handler's calls. -/
theorem post_error_of_result (env : Env) (event : Event) (m : String)
    (ht : triggersHandler event = true)
    (hm : (handleStripeEvent env event).result = HandlerResult.fetchError m) :
    postWebhooksStripe env (SigResult.ok event) =
      ⟨200, RespBody.receivedWithError, (handleStripeEvent env event).calls⟩ := by
  unfold postWebhooksStripe
  dsimp only
  rw [ht, if_pos rfl]
  cases hr : (handleStripeEvent env event).result with
  | noCharge => rw [hr] at hm; exact absurd hm (by simp)
  | noOrderId => rw [hr] at hm; exact absurd hm (by simp)
  | noNames => rw [hr] at hm; exact absurd hm (by simp)
  | noPaymentIntent => rw [hr] at hm; exact absurd hm (by simp)
  | fetchError m2 => rfl
  | updated p d m2 => rw [hr] at hm; exact absurd hm (by simp)

/-- Every non-update, non-error outcome of the handler logs a warning. -/
theorem handle_abort_warns (env : Env) (event : Event) :
    ((handleStripeEvent env event).result = HandlerResult.noCharge ∨
      (handleStripeEvent env event).result = HandlerResult.noOrderId ∨
      (handleStripeEvent env event).result = HandlerResult.noNames ∨
      (handleStripeEvent env event).result = HandlerResult.noPaymentIntent) →
    (handleStripeEvent env event).warns ≠ [] := by
  unfold handleStripeEvent orderStep updateStep
  dsimp only
  split
  · intro _; simp
  · split
    · intro _; simp
    · split
      · intro h; simp at h
      · split
        · intro _; simp
        · split
          · intro _; simp
          · intro h; simp at h

/-! ## Claims -/

/-- C1: the synthesized description equals the spec's pipeline — each line
item's product name trimmed of whitespace, empty strings discarded, the
survivors joined with ", ", and the result truncated to at most 500
characters (a total function, so it never raises on a longer string); in
particular, for line items with product names "A", " " and "B" the
description is "A, B". -/
theorem C1_description_synthesis :
    (∀ items : List LineItem, descriptionOf items = specDescription items) ∧
    (∀ items : List LineItem, (descriptionOf items).length ≤ 500) ∧
    descriptionOf [⟨some "A"⟩, ⟨some " "⟩, ⟨some "B"⟩] = "A, B" := by
  refine ⟨?_, ?_, by decide⟩
  · intro items
    simp [descriptionOf, specDescription, namesOf, List.map_map, Function.comp_def]
  · intro items
    have h : (descriptionOf items).length =
        ((String.intercalate ", " (namesOf items)).data.take 500).length := rfl
    rw [h, List.length_take]
    omega

/-- C2: the order id is looked up in charge metadata under exactly the three
candidate keys "metadataid", "orderid", "squarespace_order_id", consulted in
that priority order with the first match winning; and when none of the three
keys is present in the resolved charge's metadata, the handler performs no
order lookup and the endpoint responds 200 without an error flag. -/
theorem C2_order_id_precedence :
    (∀ md : List (String × String), orderIdOf md = firstTruthyKey md orderIdKeys) ∧
    (∀ (env : Env) (event : Event) (c : Charge),
      triggersHandler event = true →
      (resolveCharge env (extractIds event).2 (extractIds event).1).1 = some c →
      (∀ k ∈ orderIdKeys, mdLookup (c.metadata.getD []) k = none) →
      (postWebhooksStripe env (SigResult.ok event)).status = 200 ∧
      (postWebhooksStripe env (SigResult.ok event)).body = RespBody.receivedOnly ∧
      ∀ u, Call.orderGet u ∉ (postWebhooksStripe env (SigResult.ok event)).calls) := by
  constructor
  · intro md
    simp [orderIdOf, orderIdKeys, firstTruthyKey, jsOrStr]
  · intro env event c ht hc hmd
    have h1 : mdLookup (c.metadata.getD []) "metadataid" = none :=
      hmd _ (by simp [orderIdKeys])
    have h2 : mdLookup (c.metadata.getD []) "orderid" = none :=
      hmd _ (by simp [orderIdKeys])
    have h3 : mdLookup (c.metadata.getD []) "squarespace_order_id" = none :=
      hmd _ (by simp [orderIdKeys])
    have hoid : orderIdOf (c.metadata.getD []) = none := by
      simp [orderIdOf, h1, h2, h3, jsOrStr, jsTruthy]
    have hout := handle_noOrderId env event c hc hoid
    have hpost := post_ok_of_result env event ht (by rw [hout]; intro m h; simp at h)
    refine ⟨by rw [hpost], by rw [hpost], fun u => ?_⟩
    rw [hpost]
    show Call.orderGet u ∉ (handleStripeEvent env event).calls
    rw [hout]
    show Call.orderGet u ∉ (resolveCharge env (extractIds event).2 (extractIds event).1).2
    exact resolveCharge_no_orderGet env _ _ u

/-- C2 witness: a charge whose metadata has none of the three keys gives a
200 `{received: true}` response with no order-service GET. -/
theorem C2_order_id_precedence_witness :
    (postWebhooksStripe envNoKeys (SigResult.ok evCharge)).status = 200 ∧
    (postWebhooksStripe envNoKeys (SigResult.ok evCharge)).body = RespBody.receivedOnly ∧
    ∀ u, Call.orderGet u ∉ (postWebhooksStripe envNoKeys (SigResult.ok evCharge)).calls :=
  C2_order_id_precedence.2 envNoKeys evCharge chNoKeys (by decide) (by decide) (by decide)

/-- C3: when the order-service lookup answers a non-2xx status, an error is
raised whose message carries the status code, status text and response body
text; the top-level handler catches it and responds 200 with
`{received: true, error: true}`; and no payment-intent update call is
performed. -/
theorem C3_non2xx_order_lookup
    (env : Env) (event : Event) (c : Charge) (orderId : String)
    (ht : triggersHandler event = true)
    (hc : (resolveCharge env (extractIds event).2 (extractIds event).1).1 = some c)
    (hoid : orderIdOf (c.metadata.getD []) = some orderId)
    (hresp : respOk (env.fetch (orderUrl orderId)) = false) :
    (handleStripeEvent env event).result =
      HandlerResult.fetchError
        ("Squarespace " ++ toString (env.fetch (orderUrl orderId)).status ++ " " ++
          (env.fetch (orderUrl orderId)).statusText ++ ": " ++
          (env.fetch (orderUrl orderId)).body) ∧
    postWebhooksStripe env (SigResult.ok event) =
      ⟨200, RespBody.receivedWithError, (handleStripeEvent env event).calls⟩ ∧
    ∀ p d m, Call.piUpdate p d m ∉ (handleStripeEvent env event).calls := by
  have hout := handle_fetchError env event c orderId hc hoid hresp
  have hres : (handleStripeEvent env event).result =
      HandlerResult.fetchError (ssErrorMessage (env.fetch (orderUrl orderId))) := by
    rw [hout]
  refine ⟨hres, post_error_of_result env event _ ht hres, fun p d m => ?_⟩
  rw [hout]
  show Call.piUpdate p d m ∉
    (resolveCharge env (extractIds event).2 (extractIds event).1).2 ++
      [Call.orderGet (orderUrl orderId)]
  have h1 := resolveCharge_no_piUpdate env (extractIds event).2 (extractIds event).1 p d m
  simp only [List.mem_append, List.mem_singleton]
  rintro (h | h)
  · exact h1 h
  · exact Call.noConfusion h

/-- C3 witness: a 404 from the order service at a concrete charge. -/
theorem C3_non2xx_order_lookup_witness :
    (handleStripeEvent envNotFound evCharge).result =
      HandlerResult.fetchError
        ("Squarespace " ++ toString (envNotFound.fetch (orderUrl "ord-42")).status ++ " " ++
          (envNotFound.fetch (orderUrl "ord-42")).statusText ++ ": " ++
          (envNotFound.fetch (orderUrl "ord-42")).body) ∧
    postWebhooksStripe envNotFound (SigResult.ok evCharge) =
      ⟨200, RespBody.receivedWithError, (handleStripeEvent envNotFound evCharge).calls⟩ ∧
    ∀ p d m, Call.piUpdate p d m ∉ (handleStripeEvent envNotFound evCharge).calls :=
  C3_non2xx_order_lookup envNotFound evCharge chWithOrder "ord-42"
    (by decide) (by decide) (by decide) (by decide)

/-- C4: a signature-verification failure yields status 400 with body
"Webhook Error: <message>" and no outbound calls and no further processing. -/
theorem C4_signature_failure (env : Env) (msg : String) :
    postWebhooksStripe env (SigResult.fail msg) =
      ⟨400, RespBody.webhookError ("Webhook Error: " ++ msg), []⟩ := rfl

/-- C5: every abort condition of business processing (no charge, no order id,
no surviving product names, no payment-intent id) logs a warning and returns
without raising, and the endpoint then responds 200 with `{received: true}`
and no error flag. -/
theorem C5_aborts_are_nonfatal (env : Env) (event : Event)
    (ht : triggersHandler event = true)
    (hab : (handleStripeEvent env event).result = HandlerResult.noCharge ∨
      (handleStripeEvent env event).result = HandlerResult.noOrderId ∨
      (handleStripeEvent env event).result = HandlerResult.noNames ∨
      (handleStripeEvent env event).result = HandlerResult.noPaymentIntent) :
    (handleStripeEvent env event).warns ≠ [] ∧
    postWebhooksStripe env (SigResult.ok event) =
      ⟨200, RespBody.receivedOnly, (handleStripeEvent env event).calls⟩ := by
  refine ⟨handle_abort_warns env event hab, post_ok_of_result env event ht ?_⟩
  intro m hm
  rcases hab with h | h | h | h <;> rw [hm] at h <;> exact HandlerResult.noConfusion h

/-- C5 witness: the no-order-id abort at a concrete charge. -/
theorem C5_aborts_are_nonfatal_witness :
    (handleStripeEvent envNoKeys evCharge).warns ≠ [] ∧
    postWebhooksStripe envNoKeys (SigResult.ok evCharge) =
      ⟨200, RespBody.receivedOnly, (handleStripeEvent envNoKeys evCharge).calls⟩ :=
  C5_aborts_are_nonfatal envNoKeys evCharge (by decide) (Or.inr (Or.inl (by decide)))

/-- C6: whenever the update step runs, it writes exactly the synthesized
description and the metadata mapping made of the order's id, the order number
converted to a string, and the product count converted to a string. -/
theorem C6_update_payload
    (env : Env) (event : Event) (c : Charge) (orderId : String)
    (order : Order) (pid : String)
    (hc : (resolveCharge env (extractIds event).2 (extractIds event).1).1 = some c)
    (hoid : orderIdOf (c.metadata.getD []) = some orderId)
    (hresp : respOk (env.fetch (orderUrl orderId)) = true)
    (hord : env.parseOrder (env.fetch (orderUrl orderId)).body = order)
    (hn : (namesOf (order.lineItems.getD [])).isEmpty = false)
    (hpi : finalPiId (extractIds event).1 c = some pid) :
    (handleStripeEvent env event).result =
      HandlerResult.updated pid (descriptionOf (order.lineItems.getD []))
        (piMetadataOf order (namesOf (order.lineItems.getD []))) ∧
    piMetadataOf order (namesOf (order.lineItems.getD [])) =
      [("squarespace_order_id", order.id),
       ("squarespace_order_number", orderNumberString order.orderNumber),
       ("product_count", toString (namesOf (order.lineItems.getD [])).length)] ∧
    Call.piUpdate pid (descriptionOf (order.lineItems.getD []))
      (piMetadataOf order (namesOf (order.lineItems.getD []))) ∈
        (handleStripeEvent env event).calls := by
  have hout := handle_updated env event c orderId order pid hc hoid hresp hord hn hpi
  refine ⟨by rw [hout], rfl, ?_⟩
  rw [hout]
  show Call.piUpdate pid (descriptionOf (order.lineItems.getD []))
      (piMetadataOf order (namesOf (order.lineItems.getD []))) ∈
    ((resolveCharge env (extractIds event).2 (extractIds event).1).2 ++
      [Call.orderGet (orderUrl orderId)]) ++
      [Call.piUpdate pid (descriptionOf (order.lineItems.getD []))
        (piMetadataOf order (namesOf (order.lineItems.getD [])))]
  simp

/-- C6 witness: the update at a concrete order with names "A" and "B". -/
theorem C6_update_payload_witness :
    (handleStripeEvent envOrders evCharge).result =
      HandlerResult.updated "pi_1" (descriptionOf (orderAB.lineItems.getD []))
        (piMetadataOf orderAB (namesOf (orderAB.lineItems.getD []))) ∧
    piMetadataOf orderAB (namesOf (orderAB.lineItems.getD [])) =
      [("squarespace_order_id", orderAB.id),
       ("squarespace_order_number", orderNumberString orderAB.orderNumber),
       ("product_count", toString (namesOf (orderAB.lineItems.getD [])).length)] ∧
    Call.piUpdate "pi_1" (descriptionOf (orderAB.lineItems.getD []))
      (piMetadataOf orderAB (namesOf (orderAB.lineItems.getD []))) ∈
        (handleStripeEvent envOrders evCharge).calls :=
  C6_update_payload envOrders evCharge chWithOrder "ord-42" orderAB "pi_1"
    (by decide) (by decide) (by decide) (by decide) (by decide) (by decide)

/-- C7: charge resolution fetches the charge directly when a charge id is
known; otherwise, when a payment-intent id is known, it fetches the expanded
payment intent and takes the first charge of its charge list; and when
neither path yields a charge, processing aborts with only a log. -/
theorem C7_charge_resolution :
    (∀ (env : Env) (s : String) (piId : Option String), s ≠ "" →
      resolveCharge env (some s) piId =
        (some (env.retrieveCharge s), [Call.chargeRetrieve s])) ∧
    (∀ (env : Env) (chargeId : Option String) (s : String),
      jsTruthy chargeId = false → s ≠ "" →
      resolveCharge env chargeId (some s) =
        (firstChargeOf (env.retrievePI s), [Call.piRetrieve s])) ∧
    (∀ (pi : PaymentIntentRec) (cl : ChargeList) (l : List Charge),
      pi.charges = some cl → cl.data = some l → firstChargeOf pi = l.head?) ∧
    (∀ (env : Env) (event : Event),
      (resolveCharge env (extractIds event).2 (extractIds event).1).1 = none →
      handleStripeEvent env event =
        ⟨HandlerResult.noCharge,
         (resolveCharge env (extractIds event).2 (extractIds event).1).2,
         ["No charge found; cannot read metadata join key."]⟩) := by
  refine ⟨?_, ?_, ?_, ?_⟩
  · intro env s piId h
    simp [resolveCharge, jsTruthy, h]
  · intro env chargeId s hcid h
    unfold resolveCharge
    rw [hcid, if_neg Bool.false_ne_true]
    simp [jsTruthy, h]
  · intro pi cl l h1 h2
    simp [firstChargeOf, h1, h2]
  · intro env event h
    exact handle_noCharge env event h

/-- C7 witness: a known charge id is fetched directly. -/
theorem C7_charge_resolution_witness :
    resolveCharge envOrders (some "ch_1") none =
      (some (envOrders.retrieveCharge "ch_1"), [Call.chargeRetrieve "ch_1"]) :=
  C7_charge_resolution.1 envOrders "ch_1" none (by decide)

/-- C8: a validly signed event whose type is neither of the two payment
succeeded variants is answered 200 `{received: true}` with no outbound
calls. -/
theorem C8_ignored_event_type (env : Env) (event : Event)
    (h : triggersHandler event = false) :
    postWebhooksStripe env (SigResult.ok event) = ⟨200, RespBody.receivedOnly, []⟩ := by
  unfold postWebhooksStripe
  dsimp only
  rw [h, if_neg Bool.false_ne_true]

/-- C8 witness: an `invoice.paid` event is acknowledged without calls. -/
theorem C8_ignored_event_type_witness :
    postWebhooksStripe envOrders (SigResult.ok evIgnored) =
      ⟨200, RespBody.receivedOnly, []⟩ :=
  C8_ignored_event_type envOrders evIgnored (by decide)

/-- C9: when any of the three required configuration values is missing, the
process exits with code 1 before listening and never serves requests. -/
theorem C9_missing_config (e : EnvVars)
    (h : e.STRIPE_API_KEY = none ∨ e.STRIPE_WEBHOOK_SECRET = none ∨
      e.SQUARESPACE_API_KEY = none) :
    startup e = StartupResult.exited 1 ∧ startup e ≠ StartupResult.listening := by
  have hex : startup e = StartupResult.exited 1 := by
    unfold startup
    rcases h with h | h | h <;> simp [jsTruthy, h]
  exact ⟨hex, by rw [hex]; exact fun h => StartupResult.noConfusion h⟩

/-- C9 witness: a missing processor API key aborts startup. -/
theorem C9_missing_config_witness :
    startup ⟨none, some "whsec", some "sskey"⟩ = StartupResult.exited 1 ∧
    startup ⟨none, some "whsec", some "sskey"⟩ ≠ StartupResult.listening :=
  C9_missing_config ⟨none, some "whsec", some "sskey"⟩ (Or.inl rfl)

/-- C10: an empty-string metadata value is treated as absent by the order-id
lookup — a higher-priority key bound to "" falls through to the remaining
candidates, and when every candidate key is absent or bound to "" the lookup
yields nothing and the handler aborts exactly as when no key is present. -/
theorem C10_empty_metadata_value_is_absent :
    (∀ md : List (String × String), mdLookup md "metadataid" = some "" →
      orderIdOf md = firstTruthyKey md ["orderid", "squarespace_order_id"]) ∧
    (∀ md : List (String × String),
      (∀ k ∈ orderIdKeys, mdLookup md k = none ∨ mdLookup md k = some "") →
      orderIdOf md = none) ∧
    (∀ (env : Env) (event : Event) (c : Charge),
      (resolveCharge env (extractIds event).2 (extractIds event).1).1 = some c →
      (∀ k ∈ orderIdKeys, mdLookup (c.metadata.getD []) k = none ∨
        mdLookup (c.metadata.getD []) k = some "") →
      (handleStripeEvent env event).result = HandlerResult.noOrderId) := by
  have key : ∀ md : List (String × String),
      (∀ k ∈ orderIdKeys, mdLookup md k = none ∨ mdLookup md k = some "") →
      orderIdOf md = none := by
    intro md h
    rcases h _ (by simp [orderIdKeys] : "metadataid" ∈ orderIdKeys) with h1 | h1 <;>
      rcases h _ (by simp [orderIdKeys] : "orderid" ∈ orderIdKeys) with h2 | h2 <;>
      rcases h _ (by simp [orderIdKeys] : "squarespace_order_id" ∈ orderIdKeys) with h3 | h3 <;>
      simp [orderIdOf, jsOrStr, jsTruthy, h1, h2, h3]
  refine ⟨?_, key, ?_⟩
  · intro md h
    simp [orderIdOf, firstTruthyKey, jsOrStr, jsTruthy, h]
  · intro env event c hc h
    rw [handle_noOrderId env event c hc (key _ h)]

/-- C10 witness: all three keys bound to "" abort like an absent key. -/
theorem C10_empty_metadata_value_is_absent_witness :
    (handleStripeEvent envEmptyKeys evCharge).result = HandlerResult.noOrderId :=
  C10_empty_metadata_value_is_absent.2.2 envEmptyKeys evCharge chEmptyKeys
    (by decide) (by decide)

end Splash
